import Mathlib

set_option maxRecDepth 8000
set_option maxHeartbeats 1000000

namespace NcdFlasher

/-- Asset kinds acquired by a flashing run: the four urlretrieve targets plus
the auxiliary boot stage file copied from the bundled AWS directory. -/
inductive AssetKind
  | firmware
  | spiffs
  | bootloader
  | partitions
  | bootApp0
deriving DecidableEq

/-- One catalog entry of the firmware selection tables: the variant name and
the optional remote location of each asset kind. -/
structure Profile where
  name : String
  firmware : Option String := none
  spiffs : Option String := none
  bootloader : Option String := none
  partitions : Option String := none
deriving DecidableEq

/-- The stable firmware catalog, transcribed from the `firmware_choices`
dictionary of ncd_flasher.py (keys are variant id strings). -/
def firmware_choices : List (String × Profile) := [
  ("1", { name := "WiFi AWS Gateway",
          firmware := some "https://ncd-esp32.s3.us-east-1.amazonaws.com/Production_AWS/bootloader.bin",
          spiffs := some "https://ncd-esp32.s3.us-east-1.amazonaws.com/Production_AWS/spiffs.bin",
          bootloader := some "https://ncd-esp32.s3.us-east-1.amazonaws.com/Production_AWS/bootloader.bin",
          partitions := some "https://ncd-esp32.s3.us-east-1.amazonaws.com/Production_AWS/partitions.bin" }),
  ("2", { name := "WiFi Azure Gateway",
          firmware := some "https://ncd-esp32.s3.amazonaws.com/WiFi_Azure/firmware.bin",
          spiffs := some "https://ncd-esp32.s3.amazonaws.com/WiFi_Azure/spiffs.bin",
          bootloader := some "https://ncd-esp32.s3.amazonaws.com/WiFi_Azure/bootloader.bin",
          partitions := some "https://ncd-esp32.s3.amazonaws.com/WiFi_Azure/partitions.bin" }),
  ("3", { name := "WiFi MQTT Gateway",
          firmware := some "https://ncd-esp32.s3.amazonaws.com/WiFi_MQTT/firmware.bin",
          spiffs := some "https://ncd-esp32.s3.amazonaws.com/WiFi_MQTT/spiffs.bin",
          bootloader := some "https://ncd-esp32.s3.amazonaws.com/WiFi_MQTT/bootloader.bin",
          partitions := some "https://ncd-esp32.s3.amazonaws.com/WiFi_MQTT/partitions.bin" }),
  ("4", { name := "WiFi Google IoT Gateway",
          firmware := some "https://ncd-esp32.s3.amazonaws.com/WiFi_Google/firmware.bin",
          spiffs := some "https://ncd-esp32.s3.amazonaws.com/WiFi_Google/spiffs.bin",
          bootloader := some "https://ncd-esp32.s3.amazonaws.com/WiFi_Google/bootloader.bin",
          partitions := some "https://ncd-esp32.s3.amazonaws.com/WiFi_Google/partitions.bin" }),
  ("5", { name := "Mega Modem",
          firmware := some "https://ncd-esp32.s3.amazonaws.com/Mega_Modem/firmware.bin",
          spiffs := some "https://ncd-esp32.s3.amazonaws.com/Mega_Modem/spiffs.bin",
          bootloader := some "https://ncd-esp32.s3.amazonaws.com/Mega_Modem/bootloader.bin",
          partitions := some "https://ncd-esp32.s3.amazonaws.com/Mega_Modem/partitions.bin" }),
  ("6", { name := "Cellular MQTT Gateway",
          firmware := some "https://ncd-esp32.s3.amazonaws.com/Cellular_MQTT/firmware.bin",
          spiffs := some "https://ncd-esp32.s3.amazonaws.com/Cellular_MQTT/spiffs.bin",
          bootloader := some "https://ncd-esp32.s3.amazonaws.com/Cellular_MQTT/bootloader.bin",
          partitions := some "https://ncd-esp32.s3.amazonaws.com/Cellular_MQTT/partitions.bin" }),
  ("7", { name := "Losant Gateway",
          firmware := some "https://ncd-esp32.s3.amazonaws.com/WiFi_Losant/firmware.bin",
          spiffs := some "https://ncd-esp32.s3.amazonaws.com/WiFi_Losant/spiffs.bin",
          bootloader := some "https://ncd-esp32.s3.amazonaws.com/WiFi_Losant/bootloader.bin",
          partitions := some "https://ncd-esp32.s3.amazonaws.com/WiFi_Losant/partitions.bin" }),
  ("8", { name := "4 Relay MirPro",
          firmware := some "https://ncd-esp32.s3.amazonaws.com/4_Relay_MirPro/firmware.bin",
          spiffs := some "https://ncd-esp32.s3.amazonaws.com/4_Relay_MirPro/spiffs.bin",
          bootloader := some "https://ncd-esp32.s3.amazonaws.com/4_Relay_MirPro/bootloader.bin",
          partitions := some "https://ncd-esp32.s3.amazonaws.com/4_Relay_MirPro/partitions.bin" }),
  ("9", { name := "AWS WiFi Sensor",
          firmware := some "https://ncd-esp32.s3.amazonaws.com/AWS_Sensor/firmware.bin",
          spiffs := some "https://ncd-esp32.s3.amazonaws.com/AWS_Sensor/spiffs.bin",
          bootloader := some "https://ncd-esp32.s3.amazonaws.com/AWS_Sensor/bootloader.bin",
          partitions := some "https://ncd-esp32.s3.amazonaws.com/AWS_Sensor/partitions.bin" }),
  ("10", { name := "MQTT WiFi Sensor",
           firmware := some "https://ncd-esp32.s3.amazonaws.com/MQTT_Sensor/firmware.bin",
           spiffs := some "https://ncd-esp32.s3.amazonaws.com/MQTT_Sensor/spiffs.bin",
           bootloader := some "https://ncd-esp32.s3.amazonaws.com/MQTT_Sensor/bootloader.bin",
           partitions := some "https://ncd-esp32.s3.amazonaws.com/MQTT_Sensor/partitions.bin" }),
  ("11", { name := "Mirror PR53-4",
           firmware := some "https://ncd-esp32.s3.amazonaws.com/Mirror_PR53-4/firmware.bin",
           spiffs := some "https://ncd-esp32.s3.amazonaws.com/Mirror_PR53-4/spiffs.bin",
           bootloader := some "https://ncd-esp32.s3.amazonaws.com/Mirror_PR53-4/bootloader-dev.bin",
           partitions := some "https://ncd-esp32.s3.amazonaws.com/Mirror_PR53-4/partitions.bin" }),
  ("12", { name := "Azure WiFi Sensor",
           firmware := some "https://ncd-esp32.s3.amazonaws.com/Azure_Sensor/firmware.bin",
           spiffs := some "https://ncd-esp32.s3.amazonaws.com/Azure_Sensor/spiffs.bin",
           bootloader := some "https://ncd-esp32.s3.amazonaws.com/Azure_Sensor/bootloader.bin",
           partitions := some "https://ncd-esp32.s3.amazonaws.com/Azure_Sensor/partitions.bin" }),
  ("13", { name := "Contact Closure Email Generator",
           firmware := some "https://ncd-esp32.s3.amazonaws.com/Email_Generator/firmware.bin",
           spiffs := some "https://ncd-esp32.s3.amazonaws.com/Email_Generator/spiffs.bin",
           bootloader := some "https://ncd-esp32.s3.amazonaws.com/Email_Generator/bootloader.bin",
           partitions := some "https://ncd-esp32.s3.amazonaws.com/Email_Generator/partitions.bin" }),
  ("14", { name := "ESP XBee",
           firmware := some "https://ncd-esp32.s3.amazonaws.com/ESP_XBee/firmware.bin",
           spiffs := some "https://ncd-esp32.s3.amazonaws.com/ESP_XBee/spiffs.bin",
           bootloader := some "https://ncd-esp32.s3.amazonaws.com/ESP_XBee/bootloader.bin",
           partitions := some "https://ncd-esp32.s3.amazonaws.com/ESP_XBee/partitions.bin" }),
  ("15", { name := "WiFi Azure Gateway Custom",
           firmware := some "https://ncd-esp32.s3.amazonaws.com/WiFi_Azure_Custom/firmware.bin",
           spiffs := some "https://ncd-esp32.s3.amazonaws.com/WiFi_Azure_Custom/spiffs.bin",
           bootloader := some "https://ncd-esp32.s3.amazonaws.com/WiFi_Azure_Custom/bootloader.bin",
           partitions := some "https://ncd-esp32.s3.amazonaws.com/WiFi_Azure_Custom/partitions.bin" }),
  ("16", { name := "4-20mA Input Transmitter 4 channel",
           firmware := some "https://ncd-esp32.s3.amazonaws.com/4-20_Input_Mirror_Transmitter_4_Channel/firmware.bin",
           spiffs := some "https://ncd-esp32.s3.amazonaws.com/4-20_Input_Mirror_Transmitter_4_Channel/spiffs.bin",
           bootloader := some "https://ncd-esp32.s3.amazonaws.com/4-20_Input_Mirror_Transmitter_4_Channel/bootloader.bin",
           partitions := some "https://ncd-esp32.s3.amazonaws.com/4-20_Input_Mirror_Transmitter_4_Channel/partitions.bin" }),
  ("17", { name := "Radon MN",
           firmware := some "https://ncd-esp32.s3.amazonaws.com/radonmn_mqtt/firmware.bin",
           spiffs := some "https://ncd-esp32.s3.amazonaws.com/radonmn_mqtt/spiffs.bin",
           bootloader := some "https://ncd-esp32.s3.amazonaws.com/radonmn_mqtt/bootloader.bin",
           partitions := some "https://ncd-esp32.s3.amazonaws.com/radonmn_mqtt/partitions.bin" }),
  ("18", { name := "0-10VDC Input Transmitter 4 channel",
           firmware := some "https://ncd-esp32.s3.amazonaws.com/0-10V_Input_Mirror_Transmitter_4_Channel/firmware.bin",
           spiffs := some "https://ncd-esp32.s3.amazonaws.com/0-10V_Input_Mirror_Transmitter_4_Channel/spiffs.bin",
           bootloader := some "https://ncd-esp32.s3.amazonaws.com/0-10V_Input_Mirror_Transmitter_4_Channel/bootloader.bin",
           partitions := some "https://ncd-esp32.s3.amazonaws.com/0-10V_Input_Mirror_Transmitter_4_Channel/partitions.bin" }),
  ("19", { name := "Goodtech 4 channel",
           firmware := some "https://ncd-esp32.s3.amazonaws.com/Goodtech_4_Relay/firmware.bin",
           bootloader := some "https://ncd-esp32.s3.amazonaws.com/Goodtech_4_Relay/bootloader.bin",
           partitions := some "https://ncd-esp32.s3.amazonaws.com/Goodtech_4_Relay/partitions.bin" }),
  ("20", { name := "SOTA Relay",
           firmware := some "https://ncd-esp32.s3.amazonaws.com/SOTA_Relay/firmware.bin",
           bootloader := some "https://ncd-esp32.s3.amazonaws.com/SOTA_Relay/bootloader.bin",
           partitions := some "https://ncd-esp32.s3.amazonaws.com/SOTA_Relay/partitions.bin" }),
  ("21", { name := "Goodtech 2 relay 2 dac",
           firmware := some "https://ncd-esp32.s3.amazonaws.com/Goodtech_2_Relay_2_Dac/firmware.bin",
           bootloader := some "https://ncd-esp32.s3.amazonaws.com/Goodtech_2_Relay_2_Dac/bootloader.bin",
           partitions := some "https://ncd-esp32.s3.amazonaws.com/Goodtech_2_Relay_2_Dac/partitions.bin",
           spiffs := some "https://ncd-esp32.s3.amazonaws.com/Goodtech_2_Relay_2_Dac/spiffs.bin" }),
  ("22", { name := "RFID" }),
  ("23", { name := "MQTT V2 Temperature/Humidity Sensor",
           firmware := some "https://ncd-esp32.s3.amazonaws.com/ESP32_V2_Sensor_Temperature_Humidity/firmware.bin",
           spiffs := some "https://ncd-esp32.s3.amazonaws.com/ESP32_V2_Sensor_Temperature_Humidity/spiffs.bin",
           bootloader := some "https://ncd-esp32.s3.amazonaws.com/ESP32_V2_Sensor_Temperature_Humidity/bootloader.bin",
           partitions := some "https://ncd-esp32.s3.amazonaws.com/ESP32_V2_Sensor_Temperature_Humidity/partitions.bin" }),
  ("24", { name := "SOTA PWM",
           firmware := some "https://ncd-esp32.s3.amazonaws.com/SOTA_PWM/firmware.bin",
           bootloader := some "https://ncd-esp32.s3.amazonaws.com/SOTA_PWM/bootloader.bin",
           partitions := some "https://ncd-esp32.s3.amazonaws.com/SOTA_PWM/partitions.bin" }),
  ("25", { name := "8 Input Mirror Transmitter",
           firmware := some "https://ncd-esp32.s3.amazonaws.com/eight_input_seme_mirror/firmware.bin",
           spiffs := some "https://ncd-esp32.s3.amazonaws.com/eight_input_seme_mirror/spiffs.bin",
           bootloader := some "https://ncd-esp32.s3.amazonaws.com/eight_input_seme_mirror/bootloader.bin",
           partitions := some "https://ncd-esp32.s3.amazonaws.com/eight_input_seme_mirror/partitions.bin" }),
  ("26", { name := "Firmware Flasher",
           firmware := some "https://ncd-esp32.s3.amazonaws.com/firmware_flasher/firmware.bin",
           spiffs := some "https://ncd-esp32.s3.amazonaws.com/firmware_flasher/spiffs.bin",
           bootloader := some "https://ncd-esp32.s3.amazonaws.com/firmware_flasher/bootloader.bin",
           partitions := some "https://ncd-esp32.s3.amazonaws.com/firmware_flasher/partitions.bin" }),
  ("27", { name := "Stmart Repeater 2",
           firmware := some "https://ncd-esp32.s3.amazonaws.com/Smart_Repeater_2/firmware.bin",
           spiffs := some "https://ncd-esp32.s3.amazonaws.com/Smart_Repeater_2/spiffs.bin",
           bootloader := some "https://ncd-esp32.s3.amazonaws.com/Smart_Repeater_2/bootloader.bin",
           partitions := some "https://ncd-esp32.s3.amazonaws.com/Smart_Repeater_2/partitions.bin" }),
  ("28", { name := "MQTT V2 Current Monitor Sensor",
           firmware := some "https://ncd-esp32.s3.amazonaws.com/ESP32_V2_Sensor_Current_Monitor/firmware.bin",
           spiffs := some "https://ncd-esp32.s3.amazonaws.com/ESP32_V2_Sensor_Current_Monitor/spiffs.bin",
           bootloader := some "https://ncd-esp32.s3.amazonaws.com/ESP32_V2_Sensor_Current_Monitor/bootloader.bin",
           partitions := some "https://ncd-esp32.s3.amazonaws.com/ESP32_V2_Sensor_Current_Monitor/partitions.bin" }),
  ("29", { name := "4-20mA 4 Channel Output Receiver",
           firmware := some "https://ncd-esp32.s3.amazonaws.com/4-20_Output_Mirror_Transmitter_4_Channel/bootloader.bin",
           spiffs := some "https://ncd-esp32.s3.amazonaws.com/4-20_Output_Mirror_Transmitter_4_Channel/spiffs.bin",
           bootloader := some "https://ncd-esp32.s3.amazonaws.com/4-20_Output_Mirror_Transmitter_4_Channel/bootloader.bin",
           partitions := some "https://ncd-esp32.s3.amazonaws.com/4-20_Output_Mirror_Transmitter_4_Channel/partitions.bin" }),
  ("30", { name := "MQTT V2 Push Notification",
           firmware := some "https://ncd-esp32.s3.amazonaws.com/ESP32_V2_Push_Notification/firmware.bin",
           spiffs := some "https://ncd-esp32.s3.amazonaws.com/ESP32_V2_Push_Notification/spiffs.bin",
           bootloader := some "https://ncd-esp32.s3.amazonaws.com/ESP32_V2_Push_Notification/bootloader.bin",
           partitions := some "https://ncd-esp32.s3.amazonaws.com/ESP32_V2_Push_Notification/partitions.bin" })
]

/-- The development-channel firmware catalog, transcribed from the
`firmware_choices_dev` dictionary of ncd_flasher.py (ids 1 through 6 only). -/
def firmware_choices_dev : List (String × Profile) := [
  ("1", { name := "WiFi AWS Gateway",
          firmware := some "https://ncd-esp32.s3.amazonaws.com/WiFi_AWS/firmware-dev.bin",
          spiffs := some "https://ncd-esp32.s3.amazonaws.com/WiFi_AWS/spiffs-dev.bin",
          bootloader := some "https://ncd-esp32.s3.amazonaws.com/WiFi_AWS/bootloader-dev.bin",
          partitions := some "https://ncd-esp32.s3.amazonaws.com/WiFi_AWS/partitions-dev.bin" }),
  ("2", { name := "WiFi Azure Gateway",
          firmware := some "https://ncd-esp32.s3.amazonaws.com/WiFi_Azure/firmware-dev.bin",
          spiffs := some "https://ncd-esp32.s3.amazonaws.com/WiFi_Azure/spiffs-dev.bin",
          bootloader := some "https://ncd-esp32.s3.amazonaws.com/WiFi_Azure/bootloader-dev.bin",
          partitions := some "https://ncd-esp32.s3.amazonaws.com/WiFi_Azure/partitions-dev.bin" }),
  ("3", { name := "WiFi MQTT Gateway",
          firmware := some "https://ncd-esp32.s3.amazonaws.com/WiFi_MQTT/firmware-dev.bin",
          spiffs := some "https://ncd-esp32.s3.amazonaws.com/WiFi_MQTT/spiffs-dev.bin",
          bootloader := some "https://ncd-esp32.s3.amazonaws.com/WiFi_MQTT/bootloader-dev.bin",
          partitions := some "https://ncd-esp32.s3.amazonaws.com/WiFi_MQTT/partitions-dev.bin" }),
  ("4", { name := "WiFi Google IoT Gateway",
          firmware := some "https://ncd-esp32.s3.amazonaws.com/WiFi_Google/firmware-dev.bin",
          spiffs := some "https://ncd-esp32.s3.amazonaws.com/WiFi_Google/spiffs-dev.bin",
          bootloader := some "https://ncd-esp32.s3.amazonaws.com/WiFi_Google/bootloader-dev.bin",
          partitions := some "https://ncd-esp32.s3.amazonaws.com/WiFi_Google/partitions-dev.bin" }),
  ("5", { name := "Mega Modem",
          firmware := some "https://ncd-esp32.s3.amazonaws.com/Mega_Modem/firmware-dev.bin",
          spiffs := some "https://ncd-esp32.s3.amazonaws.com/Mega_Modem/spiffs-dev.bin",
          bootloader := some "https://ncd-esp32.s3.amazonaws.com/Mega_Modem/bootloader-dev.bin",
          partitions := some "https://ncd-esp32.s3.amazonaws.com/Mega_Modem/partitions-dev.bin" }),
  ("6", { name := "Cellular MQTT Gateway",
          firmware := some "https://ncd-esp32.s3.amazonaws.com/Cellular_MQTT/firmware-dev.bin",
          spiffs := some "https://ncd-esp32.s3.amazonaws.com/Cellular_MQTT/spiffs-dev.bin",
          bootloader := some "https://ncd-esp32.s3.amazonaws.com/Cellular_MQTT/bootloader-dev.bin",
          partitions := some "https://ncd-esp32.s3.amazonaws.com/Cellular_MQTT/partitions-dev.bin" })
]

/-- One esptool invocation as the flasher builds it: chip type is fixed to
esp32 in every call site, so only the varying parameters are kept.  `steps`
is the ordered list of (flash address, local file name) pairs of the
write_flash argument list. -/
structure Invocation where
  baud : Nat
  before : Option String
  after : Option String
  flashMode : Option String
  flashFreq : Option String
  flashSize : Option String
  steps : List (Nat × String)
deriving DecidableEq

/-- The single esptool invocation of the SOTA override path
(ncd_flasher.py line 438). -/
def sotaInv : Invocation :=
  { baud := 921600, before := some "default_reset", after := some "hard_reset",
    flashMode := some "dio", flashFreq := some "40m", flashSize := some "detect",
    steps := [(0x1000, "bootloader.bin"), (0x8000, "partitions.bin"),
              (0x10000, "firmware.bin")] }

/-- The first esptool invocation of the variant-1 branch
(ncd_flasher.py line 544). -/
def inv1First : Invocation :=
  { baud := 460800, before := some "default_reset", after := some "hard_reset",
    flashMode := some "dio", flashFreq := some "80m", flashSize := some "4MB",
    steps := [(0x1000, "bootloader.bin"), (0x8000, "partitions.bin"),
              (0xe000, "boot_app0.bin"), (0x10000, "firmware.bin")] }

/-- The second esptool invocation of the variant-1 branch, which writes the
SPIFFS image and is executed unconditionally (ncd_flasher.py line 545);
it carries no reset policy and no flash-mode, flash-freq or flash-size flags. -/
def inv1SpiffsAlways : Invocation :=
  { baud := 460800, before := none, after := none,
    flashMode := none, flashFreq := none, flashSize := none,
    steps := [(0x290000, "spiffs.bin")] }

/-- The SPIFFS invocation used for the two custom-layout variants 5 and 14
(ncd_flasher.py line 550). -/
def legacySpiffsInv : Invocation :=
  { baud := 921600, before := some "default_reset", after := some "hard_reset",
    flashMode := some "dio", flashFreq := some "40m", flashSize := some "detect",
    steps := [(0x1000, "bootloader.bin"), (0x8000, "partitions.bin"),
              (0x383000, "spiffs.bin"), (0x10000, "firmware.bin")] }

/-- The SPIFFS invocation used for every other variant
(ncd_flasher.py line 553). -/
def defaultSpiffsInv : Invocation :=
  { baud := 460800, before := some "default_reset", after := some "hard_reset",
    flashMode := some "dio", flashFreq := some "80m", flashSize := some "4MB",
    steps := [(0x1000, "bootloader.bin"), (0x8000, "partitions.bin"),
              (0xe000, "boot_app0.bin"), (0x10000, "firmware.bin"),
              (0x290000, "spiffs.bin")] }

/-- The invocation used when SPIFFS is not flashed (ncd_flasher.py line 556);
note that it contains no partitions step. -/
def noSpiffsInv : Invocation :=
  { baud := 921600, before := some "default_reset", after := some "hard_reset",
    flashMode := some "dio", flashFreq := some "40m", flashSize := some "detect",
    steps := [(0x1000, "bootloader.bin"), (0x10000, "firmware.bin")] }

/-- The effective SPIFFS flag: ncd_flasher.py line 455 forces the flag off for
variants 19 and 20 regardless of the command-line option. -/
def effectiveSpiffs (choice : String) (want : Bool) : Bool :=
  if choice = "19" ∨ choice = "20" then false else want

/-- The ordered list of esptool invocations the flasher performs for a chosen
variant id and SPIFFS option, embedding ncd_flasher.py lines 543 through 556:
variant 1 always runs two invocations; otherwise the effective SPIFFS flag
selects between the 5/14 custom layout, the default SPIFFS layout, and the
two-step no-SPIFFS invocation. -/
def planInvocations (choice : String) (want : Bool) : List Invocation :=
  if choice = "1" then [inv1First, inv1SpiffsAlways]
  else if effectiveSpiffs choice want then
    if choice = "5" ∨ choice = "14" then [legacySpiffsInv] else [defaultSpiffsInv]
  else [noSpiffsInv]

/-- Whether some invocation of a plan contains a write step at the given
address with the given file name. -/
def hasStep (invs : List Invocation) (addr : Nat) (file : String) : Bool :=
  invs.any (fun inv => inv.steps.any (fun st => st.1 == addr && st.2 == file))

/-- The flash addresses at which a plan writes the SPIFFS image. -/
def spiffsAddrs (invs : List Invocation) : List Nat :=
  (((invs.map (fun inv => inv.steps)).flatten).filter
    (fun st => st.2 == "spiffs.bin")).map (fun st => st.1)

/-- How the body of the top-level try block ends: normal completion, a
SystemExit with a code, or an unexpected exception carrying its message. -/
inductive BodyOutcome
  | ok
  | sysExit (code : Nat)
  | exn (msg : String)
deriving DecidableEq

/-- The terminal failure cause recorded by the run model: an invalid firmware
id, the enumerated list of files missing from the local AWS directory, or the
absent PlatformIO build tool. -/
inductive FailureCause
  | invalidId
  | missingLocal (files : List String)
  | buildToolMissing
deriving DecidableEq

/-- The status epilogue of ncd_flasher.py lines 557 through 570: the except
handlers and the final status print.  Returns the lines printed from the
moment the body ends, together with the process exit code.  A normal body
gives status 0; SystemExit keeps its code; an unexpected exception prints
`Status: Failure` inside the handler, then the exception message, and the
final epilogue prints `Status: Failure` again with exit code 1. -/
def statusOutput : BodyOutcome → List String × Nat
  | .ok => (["Status: Success"], 0)
  | .sysExit c =>
      ((if c = 0 then ["Status: Success"] else ["Status: Failure"]), c)
  | .exn msg => (["Status: Failure", msg, "Status: Failure"], 1)

/-- The number of status lines in a list of output lines. -/
def statusCount (ls : List String) : Nat :=
  (ls.filter (fun l => l == "Status: Success" || l == "Status: Failure")).length

/-- The parameters of one catalog-driven run: the chosen variant id, the
channel and option flags, whether a SPIFFS build project directory was
supplied, and the modelled state of the externals (is the PlatformIO tool
installed, which files exist in the local AWS override directory, does the
network deliver downloads). -/
structure RunConfig where
  choice : String
  dev : Bool
  sota : Bool
  wantSpiffs : Bool
  projectDir : Bool
  pioAvailable : Bool
  localPresent : List String
  networkOK : Bool
deriving DecidableEq

/-- What the body of the try block did before the status epilogue:
which assets it downloaded, whether it copied boot_app0.bin, which esptool
invocations it ran, the failure it reported, and how it ended. -/
structure BodyResult where
  downloads : List AssetKind
  bootApp0Copied : Bool
  invocations : List Invocation
  failure : Option FailureCause
  outcome : BodyOutcome
deriving DecidableEq

/-- The message printed when a download raises; the model folds every network
transport error into this fixed message. -/
def downloadErrorMsg : String := "urlopen error"

/-- The base names of the five files the variant-1 local-override path
requires in the AWS directory (ncd_flasher.py lines 478 through 484). -/
def localFileNames : List String :=
  ["firmware", "spiffs", "bootloader", "partitions", "boot_app0"]

/-- The body of the run (ncd_flasher.py lines 433 through 556): the SOTA
override path, the firmware-id validity check, the forced SPIFFS disable for
19/20, the variant-1 local-override check, the download block with its
optional SPIFFS build step, and the esptool invocations. -/
def runBody (cfg : RunConfig) : BodyResult :=
  if cfg.sota then
    if cfg.networkOK then
      { downloads := [.firmware, .partitions, .bootloader], bootApp0Copied := false,
        invocations := [sotaInv], failure := none, outcome := .sysExit 0 }
    else
      { downloads := [], bootApp0Copied := false, invocations := [],
        failure := none, outcome := .exn downloadErrorMsg }
  else
    if ((if cfg.dev then firmware_choices_dev else firmware_choices).lookup
          cfg.choice).isNone then
      { downloads := [], bootApp0Copied := false, invocations := [],
        failure := some .invalidId, outcome := .sysExit 1 }
    else if cfg.choice = "1" then
      if (localFileNames.filter (fun n => !(cfg.localPresent.contains n))).isEmpty then
        { downloads := [], bootApp0Copied := false,
          invocations := planInvocations cfg.choice cfg.wantSpiffs,
          failure := none, outcome := .ok }
      else
        { downloads := [], bootApp0Copied := false, invocations := [],
          failure := some (.missingLocal
            (localFileNames.filter (fun n => !(cfg.localPresent.contains n)))),
          outcome := .sysExit 1 }
    else if cfg.choice = "22" then
      { downloads := [], bootApp0Copied := false,
        invocations := planInvocations cfg.choice cfg.wantSpiffs,
        failure := none, outcome := .ok }
    else if cfg.networkOK then
      if effectiveSpiffs cfg.choice cfg.wantSpiffs then
        if cfg.projectDir then
          if cfg.pioAvailable then
            { downloads := [.firmware, .bootloader, .partitions],
              bootApp0Copied := true,
              invocations := planInvocations cfg.choice cfg.wantSpiffs,
              failure := none, outcome := .ok }
          else
            { downloads := [.firmware], bootApp0Copied := false,
              invocations := [], failure := some .buildToolMissing,
              outcome := .sysExit 1 }
        else
          { downloads := [.firmware, .spiffs, .bootloader, .partitions],
            bootApp0Copied := true,
            invocations := planInvocations cfg.choice cfg.wantSpiffs,
            failure := none, outcome := .ok }
      else
        { downloads := [.firmware], bootApp0Copied := false,
          invocations := planInvocations cfg.choice cfg.wantSpiffs,
          failure := none, outcome := .ok }
    else
      { downloads := [], bootApp0Copied := false, invocations := [],
        failure := none, outcome := .exn downloadErrorMsg }

/-- The observable result of a whole run: body effects plus the status lines
and exit code produced by the epilogue. -/
structure RunResult where
  downloads : List AssetKind
  bootApp0Copied : Bool
  invocations : List Invocation
  failure : Option FailureCause
  statusLines : List String
  exitCode : Nat
deriving DecidableEq

/-- A whole run: the body followed by the status epilogue. -/
def run (cfg : RunConfig) : RunResult :=
  let b := runBody cfg
  let s := statusOutput b.outcome
  { downloads := b.downloads, bootApp0Copied := b.bootApp0Copied,
    invocations := b.invocations, failure := b.failure,
    statusLines := s.1, exitCode := s.2 }

/-- C1 counterexample: for variant 2 with SPIFFS not requested, the plan is
the single no-SPIFFS invocation, which writes the bootloader at 0x1000 but
contains no partitions step at 0x8000 at all, refuting the claim that every
plan places the partitions asset at 0x8000. -/
theorem no_spiffs_plan_omits_partitions_cex :
    hasStep (planInvocations "2" false) 0x8000 "partitions.bin" = false ∧
    hasStep (planInvocations "2" false) 0x1000 "bootloader.bin" = true ∧
    hasStep (planInvocations "2" false) 0x10000 "firmware.bin" = true := by
  decide

/-- C1 (amended): for every catalog variant and both SPIFFS options, the plan
writes the bootloader at 0x1000 and the firmware at 0x10000; the partitions
step at 0x8000 is present exactly when the variant is 1 or SPIFFS is
effectively flashed, and is omitted from the no-SPIFFS plan of every other
variant.  The SOTA override invocation carries all three steps. -/
theorem flash_plan_base_addresses :
    (firmware_choices.all (fun e =>
      ([true, false].all (fun w =>
        hasStep (planInvocations e.1 w) 0x1000 "bootloader.bin" &&
        hasStep (planInvocations e.1 w) 0x10000 "firmware.bin" &&
        (hasStep (planInvocations e.1 w) 0x8000 "partitions.bin" ==
          (e.1 == "1" || effectiveSpiffs e.1 w)))))) = true ∧
    sotaInv.steps = [(0x1000, "bootloader.bin"), (0x8000, "partitions.bin"),
                     (0x10000, "firmware.bin")] := by
  constructor
  · decide
  · rfl

/-- C2: for every catalog variant whose profile has a SPIFFS asset, the plan
with SPIFFS requested writes the SPIFFS image at 0x383000 for variants 5 and
14, and at 0x290000 for every other SPIFFS-capable variant. -/
theorem spiffs_offset_exception_table :
    (firmware_choices.all (fun e =>
      !(e.2.spiffs.isSome) ||
        (spiffsAddrs (planInvocations e.1 true) ==
          (if e.1 == "5" || e.1 == "14" then [0x383000] else [0x290000])))) = true := by
  decide

/-- C3 counterexample: variant 3 belongs to the claimed legacy detect-size
family, yet its SPIFFS-requested plan contains no invocation with
flash-frequency 40m or flash-size detect (it uses 80m and 4MB), refuting the
claim. -/
theorem legacy_spiffs_params_cex :
    ((planInvocations "3" true).any (fun inv =>
      inv.flashFreq == some "40m" || inv.flashSize == some "detect")) = false ∧
    ((planInvocations "3" true).all (fun inv =>
      inv.flashFreq == some "80m" && inv.flashSize == some "4MB")) = true := by
  decide

/-- C3 (amended): with SPIFFS effectively flashed, only variants 5 and 14 use
flash-mode dio with 40MHz and detect; every other variant, variant 1
included, uses dio with 80MHz and fixed 4MB on each invocation that carries
flash parameters.  The dio/40MHz/detect parameters are instead used by the
no-SPIFFS invocation of every variant other than 1. -/
theorem spiffs_invocation_flash_params :
    (firmware_choices.all (fun e =>
      (!(effectiveSpiffs e.1 true) ||
        (planInvocations e.1 true).all (fun inv =>
          !(inv.flashMode.isSome) ||
            (inv.flashMode == some "dio" &&
             inv.flashFreq ==
               (if e.1 == "5" || e.1 == "14" then some "40m" else some "80m") &&
             inv.flashSize ==
               (if e.1 == "5" || e.1 == "14" then some "detect" else some "4MB")))) &&
      (e.1 == "1" ||
        (planInvocations e.1 false).all (fun inv =>
          inv.flashMode == some "dio" && inv.flashFreq == some "40m" &&
          inv.flashSize == some "detect")))) = true := by
  decide

/-- C4: for variant 1 the plan contains two esptool invocations regardless of
the SPIFFS option, and the second invocation writes spiffs.bin at 0x290000
even when SPIFFS was not requested: the code flashes the SPIFFS image for
variant 1 unconditionally, contradicting the no-spiffs option. -/
theorem variant1_second_invocation_unconditional :
    planInvocations "1" false = [inv1First, inv1SpiffsAlways] ∧
    planInvocations "1" true = [inv1First, inv1SpiffsAlways] ∧
    inv1SpiffsAlways.steps = [(0x290000, "spiffs.bin")] ∧
    (planInvocations "1" false).length = 2 := by
  refine ⟨by decide, by decide, rfl, by decide⟩

/-- The run configuration of the C5 scenario for variant 20: stable channel,
SPIFFS requested by the caller, no build project, externals healthy. -/
def cfgSpiffsDisabled20 : RunConfig :=
  { choice := "20", dev := false, sota := false, wantSpiffs := true,
    projectDir := false, pioAvailable := true, localPresent := [],
    networkOK := true }

/-- The run configuration of the C5 scenario for variant 19. -/
def cfgSpiffsDisabled19 : RunConfig :=
  { choice := "19", dev := false, sota := false, wantSpiffs := true,
    projectDir := false, pioAvailable := true, localPresent := [],
    networkOK := true }

/-- C5 counterexample: for variant 20 with SPIFFS requested, the run omits
the SPIFFS step as claimed, but downloads only the firmware asset (one
download, not four) and never copies boot_app0.bin, because the bootloader
and partitions downloads are nested inside the SPIFFS branch. -/
theorem spiffs_disabled_downloads_cex :
    (run cfgSpiffsDisabled20).downloads = [AssetKind.firmware] ∧
    (run cfgSpiffsDisabled20).bootApp0Copied = false ∧
    ((run cfgSpiffsDisabled20).invocations.all (fun inv =>
      inv.steps.all (fun st => !(st.2 == "spiffs.bin")))) = true := by
  decide

/-- C5 (amended): for variants 19 and 20, even with SPIFFS requested, the run
plans the single no-SPIFFS invocation (no SPIFFS step), downloads only the
firmware asset, and completes with exit code 0; the bootloader and partitions
assets are not re-downloaded because those downloads sit inside the SPIFFS
branch. -/
theorem spiffs_disabled_plan_and_downloads :
    ((run cfgSpiffsDisabled19).invocations = [noSpiffsInv] ∧
     (run cfgSpiffsDisabled19).downloads = [AssetKind.firmware] ∧
     (run cfgSpiffsDisabled19).exitCode = 0) ∧
    ((run cfgSpiffsDisabled20).invocations = [noSpiffsInv] ∧
     (run cfgSpiffsDisabled20).downloads = [AssetKind.firmware] ∧
     (run cfgSpiffsDisabled20).exitCode = 0) := by
  decide

/-- C9 counterexample: the stable catalog profile for id 22 (RFID) has no
firmware, bootloader or partitions asset location, refuting the invariant
that every stable profile carries all three. -/
theorem rfid_profile_lacks_assets_cex :
    ((firmware_choices.lookup "22").map (fun p =>
      p.firmware.isSome || p.bootloader.isSome || p.partitions.isSome)) =
      some false := by
  decide

/-- C9 (amended): every stable catalog profile except id 22 has firmware,
bootloader and partitions locations; id 22 has only a name; the spiffs entry
is present for exactly the profiles other than 19, 20, 22 and 24. -/
theorem catalog_asset_presence :
    (firmware_choices.all (fun e =>
      (e.1 == "22" ||
        (e.2.firmware.isSome && e.2.bootloader.isSome && e.2.partitions.isSome)) &&
      (e.2.spiffs.isSome ==
        !(e.1 == "19" || e.1 == "20" || e.1 == "22" || e.1 == "24")))) = true ∧
    firmware_choices.lookup "22" = some { name := "RFID" } := by
  constructor
  · decide
  · decide

/-- C10: in the stable catalog, variant 29 records the identical URL for its
firmware and bootloader asset locations (both point at bootloader.bin), and
the plan flashes the file downloaded to firmware.bin at address 0x10000 under
both SPIFFS options, so the blob written at 0x10000 is the bootloader image. -/
theorem variant29_firmware_equals_bootloader :
    ((firmware_choices.lookup "29").bind Profile.firmware).isSome = true ∧
    ((firmware_choices.lookup "29").bind Profile.firmware) =
      ((firmware_choices.lookup "29").bind Profile.bootloader) ∧
    hasStep (planInvocations "29" true) 0x10000 "firmware.bin" = true ∧
    hasStep (planInvocations "29" false) 0x10000 "firmware.bin" = true := by
  refine ⟨by decide, by decide, by decide, by decide⟩

theorem two_le_length_not_isEmpty {l : List String} (h : 2 ≤ l.length) :
    l.isEmpty = false := by
  cases l with
  | nil => simp at h
  | cons a t => rfl

theorem lookup1_stable : (firmware_choices.lookup "1").isNone = false := by
  decide

theorem lookup1_dev : (firmware_choices_dev.lookup "1").isNone = false := by
  decide

/-- The run configuration of the variant-1 local-override path, parametrized
by the set of files present in the AWS directory and the remaining flags. -/
def localOverrideCfg (lp : List String) (dev want pd pio net : Bool) : RunConfig :=
  { choice := "1", dev := dev, sota := false, wantSpiffs := want,
    projectDir := pd, pioAvailable := pio, localPresent := lp,
    networkOK := net }

/-- C6: in the variant-1 local-override path, whenever at least two of the
five expected local files are missing, the run reports a single MissingLocal
failure whose list is exactly the filter of all missing names (so every
missing file is enumerated at once), performs no download and no esptool
invocation, and exits with code 1 after a final Status: Failure line. -/
theorem local_override_enumerates_missing (lp : List String)
    (dev want pd pio net : Bool)
    (hm : 2 ≤ (localFileNames.filter (fun n => !(lp.contains n))).length) :
    (run (localOverrideCfg lp dev want pd pio net)).failure =
      some (FailureCause.missingLocal
        (localFileNames.filter (fun n => !(lp.contains n)))) ∧
    (run (localOverrideCfg lp dev want pd pio net)).exitCode = 1 ∧
    (run (localOverrideCfg lp dev want pd pio net)).invocations = [] ∧
    (run (localOverrideCfg lp dev want pd pio net)).downloads = [] ∧
    (run (localOverrideCfg lp dev want pd pio net)).statusLines =
      ["Status: Failure"] := by
  have hne := two_le_length_not_isEmpty hm
  have hcond : ¬ ∀ a ∈ localFileNames, a ∈ lp := by
    intro hall
    have hnil : localFileNames.filter (fun n => !(lp.contains n)) = [] := by
      rw [List.filter_eq_nil_iff]
      intro a ha
      simp [hall a ha]
    rw [hnil] at hm
    simp at hm
  cases dev <;>
    simp [localOverrideCfg, run, runBody, statusOutput, lookup1_stable,
      lookup1_dev, hne, hcond]

/-- C6 witness: with only firmware, bootloader and partitions present, the
two missing files spiffs and boot_app0 are both enumerated in the single
failure, and the run exits with code 1. -/
theorem local_override_enumerates_missing_witness :
    2 ≤ (localFileNames.filter (fun n =>
      !((["firmware", "bootloader", "partitions"] : List String).contains n))).length ∧
    (run (localOverrideCfg ["firmware", "bootloader", "partitions"]
        false true false true true)).failure =
      some (FailureCause.missingLocal ["spiffs", "boot_app0"]) ∧
    (run (localOverrideCfg ["firmware", "bootloader", "partitions"]
        false true false true true)).exitCode = 1 := by
  refine ⟨by decide, ?_, ?_⟩
  · have h := (local_override_enumerates_missing
      ["firmware", "bootloader", "partitions"] false true false true true
      (by decide)).1
    simpa using h
  · exact (local_override_enumerates_missing
      ["firmware", "bootloader", "partitions"] false true false true true
      (by decide)).2.1

/-- The run configuration of the SPIFFS build-from-project path for a stable
catalog variant, with the PlatformIO build tool absent. -/
def buildToolAbsentCfg (choice : String) : RunConfig :=
  { choice := choice, dev := false, sota := false, wantSpiffs := true,
    projectDir := true, pioAvailable := false, localPresent := [],
    networkOK := true }

/-- C7: for any stable catalog variant on the download path (not 1, 22, 19 or
20), when a SPIFFS build project directory is supplied and the PlatformIO
tool is absent, the run fails with the build-tool-missing cause, exits with
code 1 after a final Status: Failure line, runs no esptool invocation, and
has downloaded only the firmware asset before failing. -/
theorem build_tool_absent_fails_run (choice : String)
    (hin : (firmware_choices.lookup choice).isSome = true)
    (h1 : choice ≠ "1") (h22 : choice ≠ "22")
    (h19 : choice ≠ "19") (h20 : choice ≠ "20") :
    (run (buildToolAbsentCfg choice)).failure =
      some FailureCause.buildToolMissing ∧
    (run (buildToolAbsentCfg choice)).exitCode = 1 ∧
    (run (buildToolAbsentCfg choice)).invocations = [] ∧
    (run (buildToolAbsentCfg choice)).downloads = [AssetKind.firmware] ∧
    (run (buildToolAbsentCfg choice)).statusLines = ["Status: Failure"] := by
  have hnn : (firmware_choices.lookup choice).isNone = false := by
    cases h : firmware_choices.lookup choice with
    | none => rw [h] at hin; simp at hin
    | some p => rfl
  simp [buildToolAbsentCfg, run, runBody, statusOutput, effectiveSpiffs,
    hnn, h1, h22, h19, h20]

/-- C7 witness: variant 3 with a build project directory supplied and the
build tool absent fails with the build-tool-missing cause, exit code 1, and
no esptool invocation. -/
theorem build_tool_absent_fails_run_witness :
    (firmware_choices.lookup "3").isSome = true ∧
    (run (buildToolAbsentCfg "3")).failure =
      some FailureCause.buildToolMissing ∧
    (run (buildToolAbsentCfg "3")).exitCode = 1 ∧
    (run (buildToolAbsentCfg "3")).invocations = [] := by
  refine ⟨by decide, ?_, ?_, ?_⟩
  · exact (build_tool_absent_fails_run "3" (by decide) (by decide) (by decide)
      (by decide) (by decide)).1
  · exact (build_tool_absent_fails_run "3" (by decide) (by decide) (by decide)
      (by decide) (by decide)).2.1
  · exact (build_tool_absent_fails_run "3" (by decide) (by decide) (by decide)
      (by decide) (by decide)).2.2.1

/-- The run configuration of a variant-3 run whose first download raises a
network exception. -/
def cfgNetworkDown : RunConfig :=
  { choice := "3", dev := false, sota := false, wantSpiffs := true,
    projectDir := false, pioAvailable := true, localPresent := [],
    networkOK := false }

/-- C8 counterexample: a run that fails with an unexpected exception (here a
network error during the firmware download) prints Status: Failure twice,
once from the generic exception handler and once from the final epilogue, so
the output does not contain exactly one status line even though the last line
and the exit code still agree. -/
theorem exception_run_double_status_cex :
    statusCount (run cfgNetworkDown).statusLines = 2 ∧
    (run cfgNetworkDown).statusLines =
      ["Status: Failure", downloadErrorMsg, "Status: Failure"] ∧
    (run cfgNetworkDown).exitCode = 1 := by
  decide

/-- C8 (amended): for every body outcome, the status epilogue ends the output
with exactly one of Status: Success (when the exit code is 0) or Status:
Failure (otherwise); the exit code is 0 for normal completion, the SystemExit
code when the body raised SystemExit, and 1 for an unexpected exception.
Runs ending normally or via SystemExit print the status line exactly once,
but an unexpected exception prints Status: Failure twice (plus a third
status-shaped line only when the exception message itself equals a status
line). -/
theorem status_epilogue_spec (o : BodyOutcome) :
    (statusOutput o).1.getLast? =
      some (if (statusOutput o).2 = 0 then "Status: Success"
            else "Status: Failure") ∧
    statusCount (statusOutput o).1 =
      (match o with
       | .exn m =>
           if m = "Status: Success" ∨ m = "Status: Failure" then 3 else 2
       | _ => 1) ∧
    (match o with
     | .ok => (statusOutput o).2 = 0
     | .sysExit c => (statusOutput o).2 = c
     | .exn _ => (statusOutput o).2 = 1) := by
  cases o with
  | ok => exact ⟨rfl, rfl, rfl⟩
  | sysExit c =>
      by_cases hc : c = 0 <;>
        simp [statusOutput, statusCount, hc]
  | exn m =>
      by_cases h1 : m = "Status: Success"
      · simp [statusOutput, statusCount, h1]
      · by_cases h2 : m = "Status: Failure" <;>
          simp [statusOutput, statusCount, h1, h2]

end NcdFlasher
